import Mathlib

/-!
Verification of the chunked data-streaming subsystem of the
janelia-flyem/neuroglancer repository: a shallow embedding of the DVID,
precomputed, and Clio datasource layers (HTTP credential handling, metadata
parsing, per-level bound rescaling, chunk path construction, mesh decoding,
and annotation-id handling), together with theorems settling the spec claims.

Machine integers of the source (JS numbers) are embedded as `Nat`/`Int`/`ℚ`;
fallible code is embedded as `Except`; the ambient mutable caches are embedded
as explicit state passing.
-/

/-! ### JavaScript string primitives -/

/-- `String.prototype.startsWith`: `strStartsWith s p` is `s.startsWith(p)`.
Defined over the character lists so that it is kernel-computable. -/
def strStartsWith (s p : String) : Bool :=
  p.data.isPrefixOf s.data

/-- Lower-casing used for the case-insensitive header-name normalization of
the `Headers` object.  Defined over the character list so that it is
kernel-computable. -/
def strToLower (s : String) : String :=
  ⟨s.data.map Char.toLower⟩

/-! ### DVID credentialed fetch (src/neuroglancer/datasource/dvid/api.ts) -/

/-- The two retry outcomes the DVID error classifier can select
(the string literals `'refresh'` and `'retry'` in the source). -/
inductive DVIDRetryAction where
  | refresh
  | retry
deriving DecidableEq

/-- An HTTP failure, carrying the response status code. -/
structure HttpError where
  status : Nat
deriving DecidableEq

/-- The error classifier closure passed by `fetchWithDVIDCredentials` to
`fetchWithCredentials` (api.ts lines 123-134): 403/401 selects `'refresh'`,
504 selects `'retry'`, and any other error is re-thrown unchanged. -/
def dvidErrorHandler (e : HttpError) : Except HttpError DVIDRetryAction :=
  if e.status = 403 ∨ e.status = 401 then .ok .refresh
  else if e.status = 504 then .ok .retry
  else .error e

/-- Modelled from the spec: the `fetchWithCredentials` retry state machine
(the wrapper lives outside the analyzed excerpt).  On a failed first attempt
the error classifier chooses: `'refresh'` retries once with refreshed
credentials, `'retry'` retries once with the same credentials, and a thrown
error propagates.  `server attempt credGen` is the outcome of issuing the
request on the given attempt number with the given credential generation
(generation 0 = original token, 1 = refreshed token). -/
def fetchWithCredentialsModel {T : Type} (server : Nat → Nat → Except HttpError T)
    (handleError : HttpError → Except HttpError DVIDRetryAction) : Except HttpError T :=
  match server 0 0 with
  | .ok v => .ok v
  | .error e =>
    match handleError e with
    | .ok .refresh => server 1 1
    | .ok .retry => server 1 0
    | .error e2 => .error e2

/-- `fetchWithDVIDCredentials` (api.ts lines 107-136): `fetchWithCredentials`
instantiated with the DVID error classifier. -/
def fetchWithDVIDCredentials {T : Type} (server : Nat → Nat → Except HttpError T) :
    Except HttpError T :=
  fetchWithCredentialsModel server dvidErrorHandler

/-- The `RequestInit` value handed to `fetch`: method, optional body and a
header list.  Headers are kept in the normalized (lower-cased name) form the
`Headers` object stores them in. -/
structure RequestInit where
  method : String
  body : Option String
  headers : List (String × String)
deriving DecidableEq

/-- `Headers.prototype.set`: replaces any entry with the same
case-insensitively matched name and appends the new entry. -/
def headersSet (hs : List (String × String)) (name value : String) :
    List (String × String) :=
  hs.filter (fun p => !(p.1 == strToLower name)) ++ [(strToLower name, value)]

/-- `Headers.prototype.get`: looks a header up by case-insensitive name. -/
def headerGet (hs : List (String × String)) (name : String) : Option String :=
  (hs.find? (fun p => p.1 == strToLower name)).map (fun p => p.2)

/-- The credential-applying closure of `fetchWithDVIDCredentials`
(api.ts lines 115-122): copies `init.headers` into a fresh `Headers` object,
and only when the target URL starts with `https` sets
`Authorization: Bearer <token>` and `Access-Control-Allow-Origin: *`;
the remaining fields of `init` are spread through unchanged. -/
def applyDVIDCredentialHeaders (credentials : String) (input : String)
    (reqInit : RequestInit) : RequestInit :=
  let headers := reqInit.headers
  if strStartsWith input "https" then
    { reqInit with
      headers := headersSet (headersSet headers "Authorization"
        ("Bearer " ++ credentials)) "Access-Control-Allow-Origin" "*" }
  else
    { reqInit with headers := headers }

/-! ### Chunk request paths
(src/neuroglancer/datasource/precomputed/backend.ts and the DVID backend) -/

/-- `VolumeChunkSource.download` path construction (precomputed backend.ts
lines 37-51): the raster range request for the chunk whose bounds start at
`chunkPosition` and span `chunkDataSize` voxels. -/
def precomputedVolumeChunkPath (path : String)
    (chunkPosition chunkDataSize : Nat × Nat × Nat) : String :=
  path ++ "/" ++
    toString chunkPosition.1 ++ "-" ++ toString (chunkPosition.1 + chunkDataSize.1) ++ "_" ++
    toString chunkPosition.2.1 ++ "-" ++ toString (chunkPosition.2.1 + chunkDataSize.2.1) ++ "_" ++
    toString chunkPosition.2.2 ++ "-" ++ toString (chunkPosition.2.2 + chunkDataSize.2.2)

/-- `MeshSource.download` path construction (precomputed backend.ts lines
67-73): the mesh manifest request for one object id at the configured lod. -/
def precomputedMeshManifestPath (path : String) (objectId lod : Nat) : String :=
  path ++ "/" ++ toString objectId ++ ":" ++ toString lod

/-- `MeshSource.downloadFragment` path construction (precomputed backend.ts
lines 75-82). -/
def precomputedMeshFragmentPath (path : String) (fragmentId : String) : String :=
  path ++ "/" ++ fragmentId

/-- `SkeletonSource.download` path construction (DVID backend, lines
116-125 of the unnamed backend file). -/
def dvidSkeletonPath (nodeKey dataInstanceKey : String) (objectId : Nat) : String :=
  "/api/node/" ++ nodeKey ++ "/" ++ dataInstanceKey ++ "/key/" ++
    toString objectId ++ "_swc"

/-- The raster range format documented by the spec:
`prefix/x0-x1_y0-y1_z0-z1`. -/
def specRasterRangePath (base : String) (x0 x1 y0 y1 z0 z1 : Nat) : String :=
  base ++ "/" ++ toString x0 ++ "-" ++ toString x1 ++ "_" ++
    toString y0 ++ "-" ++ toString y1 ++ "_" ++
    toString z0 ++ "-" ++ toString z1

/-- The mesh manifest format documented by the spec: `prefix/objectId:lod`. -/
def specManifestPath (base : String) (objectId lod : Nat) : String :=
  base ++ "/" ++ toString objectId ++ ":" ++ toString lod

/-! ### JSON values and the util/json verification helpers -/

/-- A parsed JSON value (numbers carried as exact rationals). -/
inductive JsonValue where
  | null
  | bool (b : Bool)
  | num (q : ℚ)
  | str (s : String)
  | arr (elements : List JsonValue)
  | obj (fields : List (String × JsonValue))

/-- First field of an object with the given name, if any. -/
def lookupField (fields : List (String × JsonValue)) (name : String) :
    Option JsonValue :=
  match fields with
  | [] => none
  | (k, v) :: rest => if k = name then some v else lookupField rest name

/-- The field list of an object value (and `[]` on any other value). -/
def jsonObjectFields : JsonValue → List (String × JsonValue)
  | .obj fields => fields
  | _ => []

/-- Modelled from the spec: `verifyObject` of util/json fails fast unless the
value is a JSON object. -/
def verifyObject (j : JsonValue) : Except String JsonValue :=
  match j with
  | .obj _ => .ok j
  | _ => .error "expected JSON object"

/-- Modelled from the spec: `verifyObjectProperty` of util/json reads a
required property and applies a parser to it; a missing property or a
non-object value fails fast with an error naming the field. -/
def verifyObjectProperty {α : Type} (j : JsonValue) (name : String)
    (f : JsonValue → Except String α) : Except String α :=
  match j with
  | .obj fields =>
    match lookupField fields name with
    | some v => f v
    | none => .error ("missing required property " ++ name)
  | _ => .error "expected JSON object"

/-- Modelled from the spec: `verifyString` of util/json. -/
def verifyString (j : JsonValue) : Except String String :=
  match j with
  | .str s => .ok s
  | _ => .error "expected string"

/-- Modelled from the spec: `verifyInt` of util/json accepts exactly the
integral numbers. -/
def verifyInt (j : JsonValue) : Except String Int :=
  match j with
  | .num q => if q.den = 1 then .ok q.num else .error "expected integer"
  | _ => .error "expected integer"

/-- Modelled from the spec: `verifyPositiveInt` of util/json. -/
def verifyPositiveInt (j : JsonValue) : Except String Nat :=
  match j with
  | .num q =>
    if q.den = 1 ∧ 0 < q.num then .ok q.num.toNat
    else .error "expected positive integer"
  | _ => .error "expected positive integer"

/-- Modelled from the spec: `verifyFinitePositiveFloat` of util/json. -/
def verifyFinitePositiveFloat (j : JsonValue) : Except String ℚ :=
  match j with
  | .num q => if 0 < q then .ok q else .error "expected positive finite number"
  | _ => .error "expected positive finite number"

/-- Modelled from the spec: `parseArray` of util/json maps a parser over a
JSON array, failing on any non-array value or element failure. -/
def parseArrayE {α : Type} (f : JsonValue → Except String α) (j : JsonValue) :
    Except String (List α) :=
  match j with
  | .arr elements => elements.mapM f
  | _ => .error "expected array"

/-- Modelled from the spec: `parseFixedLengthArray`/`parseIntVec` for
3-vectors, failing unless the array has exactly three parseable entries. -/
def parseVec3E {α : Type} (f : JsonValue → Except String α) (j : JsonValue) :
    Except String (α × α × α) :=
  match j with
  | .arr [a, b, c] => do
    let x ← f a
    let y ← f b
    let z ← f c
    .ok (x, y, z)
  | _ => .error "expected length-3 array"

/-- Modelled from the spec: `verifyMapKey` of util/json requires a string
that is a key of the given map. -/
def verifyMapKey {α : Type} (entries : List (String × α)) (j : JsonValue) :
    Except String α :=
  match j with
  | .str s =>
    match List.lookup s entries with
    | some v => .ok v
    | none => .error ("unexpected key " ++ s)
  | _ => .error "expected string"

/-- Modelled from the spec: `verifyObjectAsMap` of util/json parses every
property value of an object with the given parser. -/
def verifyObjectAsMapE {α : Type} (f : JsonValue → Except String α) (j : JsonValue) :
    Except String (List (String × α)) :=
  match j with
  | .obj fields => fields.mapM (fun p => do
      let v ← f p.2
      .ok (p.1, v))
  | _ => .error "expected JSON object"

/-! ### Precomputed mesh decoders (precomputed/backend.ts lines 54-63) -/

/-- The decoded mesh fragment payload: declared vertex count, the vertex
position bytes, and the trailing triangle index bytes. -/
structure FragmentPayload where
  numVertices : Nat
  vertexData : List Nat
  indexData : List Nat
deriving DecidableEq

/-- `DataView.prototype.getUint32(0, /*littleEndian=*/true)`: little-endian
unsigned 32-bit read of the first four bytes; a buffer shorter than four
bytes makes the read throw a `RangeError`. -/
def dataViewGetUint32LE (bytes : List Nat) : Except String Nat :=
  match bytes with
  | b0 :: b1 :: b2 :: b3 :: _ =>
    .ok (b0 + 256 * b1 + 65536 * b2 + 16777216 * b3)
  | _ => .error "RangeError: offset is outside the bounds of the DataView"

/-- Modelled from the spec: `decodeTriangleVertexPositionsAndIndices` of
mesh/backend (outside the analyzed excerpt).  The vertex position data (three
little-endian float32 coordinates, 12 bytes per vertex) starts at
`vertexByteOffset` and is followed by the triangle index data; a buffer too
short for the declared vertex count fails with a decode error. -/
def decodeTriangleVertexPositionsAndIndices (bytes : List Nat)
    (vertexByteOffset : Nat) (numVertices : Nat) : Except String FragmentPayload :=
  if bytes.length < vertexByteOffset + 12 * numVertices then
    .error "truncated mesh vertex buffer"
  else
    .ok ⟨numVertices, (bytes.drop vertexByteOffset).take (12 * numVertices),
      bytes.drop (vertexByteOffset + 12 * numVertices)⟩

/-- `decodeFragmentChunk` (precomputed backend.ts lines 58-63): reads the
vertex count from the first four bytes (little endian) and decodes the
vertex/index data starting at byte offset 4. -/
def decodeFragmentChunk (bytes : List Nat) : Except String FragmentPayload :=
  match dataViewGetUint32LE bytes with
  | .error e => .error e
  | .ok numVertices => decodeTriangleVertexPositionsAndIndices bytes 4 numVertices

/-- Modelled from the spec: `decodeJsonManifestChunk` of mesh/backend
(outside the analyzed excerpt) reads the fragment identifier list from the
named property of the manifest JSON, failing on malformed manifest JSON. -/
def decodeJsonManifestChunk (response : JsonValue) (key : String) :
    Except String (List String) :=
  verifyObjectProperty response key (parseArrayE verifyString)

/-- `decodeManifestChunk` (precomputed backend.ts lines 54-56). -/
def decodeManifestChunk (response : JsonValue) : Except String (List String) :=
  decodeJsonManifestChunk response "fragments"

/-! ### DVID data instance metadata (dvid/frontend.ts) -/

/-- The value data types the DVID frontend supports. -/
inductive DataType where
  | UINT8
  | UINT32
  | UINT64
deriving DecidableEq

/-- Volume semantics of a data instance. -/
inductive VolumeType where
  | IMAGE
  | SEGMENTATION
deriving DecidableEq

/-- Tile encodings the DVID frontend supports. -/
inductive TileEncoding where
  | JPEG
deriving DecidableEq

/-- The `serverDataTypes` map (frontend.ts lines 35-38). -/
def serverDataTypes : List (String × DataType) :=
  [("uint8", .UINT8), ("uint32", .UINT32), ("uint64", .UINT64)]

/-- `VolumeDataInstanceInfo` (frontend.ts lines 67-104) after parsing. -/
structure VolumeDataInstanceInfo where
  name : String
  volumeType : VolumeType
  dataType : DataType
  numLevels : Nat
  lowerVoxelBound : Int × Int × Int
  upperVoxelBound : Int × Int × Int
  voxelSize : ℚ × ℚ × ℚ
  numChannels : Nat
deriving DecidableEq

/-- `TileLevelInfo` (frontend.ts lines 142-157) after parsing. -/
structure TileLevelInfo where
  resolution : ℚ × ℚ × ℚ
  tileSize : Nat × Nat × Nat
deriving DecidableEq

/-- `TileDataInstanceInfo` (frontend.ts lines 184-225) after parsing. -/
structure TileDataInstanceInfo where
  name : String
  encoding : TileEncoding
  voxelSize : ℚ × ℚ × ℚ
  levels : List (String × TileLevelInfo)
  lowerVoxelBound : Int × Int × Int
  upperVoxelBound : Int × Int × Int
deriving DecidableEq

/-- A parsed data instance: `parseDataInstance` only ever constructs volume
or tile instances. -/
inductive DataInstanceInfo where
  | volume (info : VolumeDataInstanceInfo)
  | tile (info : TileDataInstanceInfo)
deriving DecidableEq

/-- The `numLevels` probing loop of the `VolumeDataInstanceInfo` constructor
(frontend.ts lines 85-92): starting from 1, count up while
`name + "_" + numLevels` is one of the sibling data instance keys.  The fuel
argument bounds the loop by the number of keys, which suffices because the
keys of a JS object are distinct. -/
def numLevelsLoop (name : String) (keys : List String) : Nat → Nat → Nat
  | 0, current => current
  | fuel + 1, current =>
    if keys.contains (name ++ "_" ++ toString current) then
      numLevelsLoop name keys fuel (current + 1)
    else
      current

/-- `numLevels` computed by the `VolumeDataInstanceInfo` constructor. -/
def computeNumLevels (name : String) (keys : List String) : Nat :=
  numLevelsLoop name keys (keys.length + 1) 1

/-- The `VolumeDataInstanceInfo` constructor (frontend.ts lines 75-104). -/
def parseVolumeDataInstance (j : JsonValue) (name : String)
    (volumeType : VolumeType) (keys : List String) :
    Except String VolumeDataInstanceInfo := do
  let extended ← verifyObjectProperty j "Extended" verifyObject
  let extendedValues ← verifyObjectProperty extended "Values" (parseArrayE verifyObject)
  match extendedValues with
  | [] => .error "Expected Extended.Values property to have length >= 1"
  | firstValue :: _ => do
    let numLevels := computeNumLevels name keys
    let dataType ← verifyObjectProperty firstValue "DataType" (verifyMapKey serverDataTypes)
    let lowerVoxelBound ← verifyObjectProperty extended "MinPoint" (parseVec3E verifyInt)
    let upperVoxelBound ← verifyObjectProperty extended "MaxPoint" (parseVec3E verifyInt)
    let voxelSize ← verifyObjectProperty extended "VoxelSize"
      (parseVec3E verifyFinitePositiveFloat)
    .ok ⟨name, volumeType, dataType, numLevels, lowerVoxelBound, upperVoxelBound,
      voxelSize, 1⟩

/-- The `TileLevelInfo` constructor (frontend.ts lines 150-156). -/
def parseTileLevelInfo (j : JsonValue) : Except String TileLevelInfo := do
  let _ ← verifyObject j
  let resolution ← verifyObjectProperty j "Resolution"
    (parseVec3E verifyFinitePositiveFloat)
  let tileSize ← verifyObjectProperty j "TileSize" (parseVec3E verifyPositiveInt)
  .ok ⟨resolution, tileSize⟩

/-- The `TileDataInstanceInfo` constructor (frontend.ts lines 201-225). -/
def parseTileDataInstance (j : JsonValue) (name : String) :
    Except String TileDataInstanceInfo := do
  let extended ← verifyObjectProperty j "Extended" verifyObject
  let levels ← verifyObjectProperty extended "Levels" (verifyObjectAsMapE parseTileLevelInfo)
  match List.lookup "0" levels with
  | none => .error "Level 0 is not defined."
  | some baseLevel => do
    let minTileCoord ← verifyObjectProperty extended "MinTileCoord" (parseVec3E verifyInt)
    let maxTileCoord ← verifyObjectProperty extended "MaxTileCoord" (parseVec3E verifyInt)
    let encodingNumber ← verifyObjectProperty extended "Encoding" (fun x => .ok x)
    match encodingNumber with
    | .num q =>
      if q = 2 then
        .ok ⟨name, .JPEG, baseLevel.resolution, levels,
          ((baseLevel.tileSize.1 : Int) * minTileCoord.1,
            (baseLevel.tileSize.2.1 : Int) * minTileCoord.2.1,
            (baseLevel.tileSize.2.2 : Int) * minTileCoord.2.2),
          ((baseLevel.tileSize.1 : Int) * maxTileCoord.1,
            (baseLevel.tileSize.2.1 : Int) * maxTileCoord.2.1,
            (baseLevel.tileSize.2.2 : Int) * maxTileCoord.2.2)⟩
      else .error "Unsupported tile encoding."
    | _ => .error "Unsupported tile encoding."

/-- `parseDataInstance` (frontend.ts lines 265-280): checks the
`Base.TypeName` tag and dispatches to the matching constructor; an
unsupported type tag fails fast with a descriptive error. -/
def parseDataInstance (j : JsonValue) (name : String) (keys : List String) :
    Except String DataInstanceInfo := do
  let _ ← verifyObject j
  let base ← verifyObjectProperty j "Base" (fun b => do
    let _ ← verifyObject b
    let typeName ← verifyObjectProperty b "TypeName" verifyString
    .ok typeName)
  match base with
  | "uint8blk" => .volume <$> parseVolumeDataInstance j name .IMAGE keys
  | "grayscale8" => .volume <$> parseVolumeDataInstance j name .IMAGE keys
  | "imagetile" => .tile <$> parseTileDataInstance j name
  | "labels64" => .volume <$> parseVolumeDataInstance j name .SEGMENTATION keys
  | "labelblk" => .volume <$> parseVolumeDataInstance j name .SEGMENTATION keys
  | other => .error ("DVID data type \"" ++ other ++ "\" is not supported.")

/-- `RepositoryInfo` (frontend.ts lines 282-312) after parsing.  `aliasName`
embeds the source's `alias` field (a reserved word in Lean).  The `uuid`
field is filled in later by `parseRepositoriesInfo`; the constructor leaves
it empty. -/
structure RepositoryInfo where
  aliasName : String
  description : String
  errors : List String
  dataInstances : List (String × DataInstanceInfo)
  nodes : List String
  uuid : String
deriving DecidableEq

/-- The per-instance try/catch loop of the `RepositoryInfo` constructor
(frontend.ts lines 297-305): a successfully parsed instance is stored under
its key; a failing instance is skipped and one descriptive message is
recorded per failure. -/
def parseDataInstances (entries : List (String × JsonValue)) (keys : List String) :
    List (String × DataInstanceInfo) × List String :=
  match entries with
  | [] => ([], [])
  | (key, v) :: rest =>
    let tailResult := parseDataInstances rest keys
    match parseDataInstance v key keys with
    | .ok info => ((key, info) :: tailResult.1, tailResult.2)
    | .error msg =>
      (tailResult.1,
        ("Failed to parse data instance \"" ++ key ++ "\": " ++ msg) :: tailResult.2)

/-- The `RepositoryInfo` constructor applied to a parsed JSON value
(frontend.ts lines 289-311). -/
def makeRepositoryInfo (j : JsonValue) : Except String RepositoryInfo := do
  let _ ← verifyObject j
  let aliasValue ← verifyObjectProperty j "Alias" verifyString
  let descriptionValue ← verifyObjectProperty j "Description" verifyString
  let dataInstanceObj ← verifyObjectProperty j "DataInstances" verifyObject
  let entries := jsonObjectFields dataInstanceObj
  let parsed := parseDataInstances entries (entries.map Prod.fst)
  let dagObj ← verifyObjectProperty j "DAG" verifyObject
  let nodesObj ← verifyObjectProperty dagObj "Nodes" verifyObject
  .ok { aliasName := aliasValue, description := descriptionValue,
        errors := parsed.2, dataInstances := parsed.1,
        nodes := (jsonObjectFields nodesObj).map Prod.fst, uuid := "" }

/-- `ServerInfo.getNode` (frontend.ts lines 354-367): counts the repository
keys having `nodeKey` as a prefix, throws unless exactly one matches, and
then returns the map entry stored under `nodeKey` itself (which may be
absent, i.e. `none`). -/
def getNode (repositories : List (String × RepositoryInfo)) (nodeKey : String) :
    Except String (Option RepositoryInfo) :=
  let matched := (repositories.map Prod.fst).filter (fun k => strStartsWith k nodeKey)
  if matched.length ≠ 1 then
    .error ("Node key \"" ++ nodeKey ++ "\" matches " ++ toString matched.length ++
      " nodes.")
  else
    .ok (List.lookup nodeKey repositories)

/-! ### Memoized server-info and volume caches (dvid/frontend.ts) -/

/-- Modelled from the spec: `stableStringify` of util/json applied to a
string, producing the JSON quoting used in cache keys. -/
def stableStringifyString (s : String) : String :=
  "\"" ++ s ++ "\""

/-- Modelled from the spec: `stableStringify` of util/json applied to a list
of base URLs, the "stable cache key" of `getServerInfo`. -/
def stableStringifyList (items : List String) : String :=
  "[" ++ String.intercalate "," (items.map stableStringifyString) ++ "]"

/-- Modelled from the spec: `stableStringify` of the `getShardedVolume`
cache-key object, with the object keys in sorted order
(`baseUrls`, `dataInstanceKey`, `level2`, `nodeKey`). -/
def stableStringifyVolumeKey (baseUrls : List String)
    (nodeKey dataInstanceKey level2 : String) : String :=
  "\x7b\"baseUrls\":" ++ stableStringifyList baseUrls ++
    ",\"dataInstanceKey\":" ++ stableStringifyString dataInstanceKey ++
    ",\"level2\":" ++ stableStringifyString level2 ++
    ",\"nodeKey\":" ++ stableStringifyString nodeKey ++ "\x7d"

/-- One of the module-level caches (`cachedServerInfo`, `existingVolumes`):
a map from stable string keys to cached objects, with cached objects
represented by allocation identifiers, plus the next fresh identifier.  An
identifier stands for one `Promise<ServerInfo>` respectively one
`MultiscaleVolumeChunkSource` object; equal identifiers mean the identical
JS object. -/
structure ObjectCache where
  entries : List (String × Nat)
  nextId : Nat
deriving DecidableEq

/-- The lookup-or-insert idiom both module caches use: return the object
cached under the key, or create a fresh object (the next identifier) and
cache it under the key. -/
def cacheLookupOrInsert (cache : ObjectCache) (cacheKey : String) :
    Nat × ObjectCache :=
  match List.lookup cacheKey cache.entries with
  | some cached => (cached, cache)
  | none =>
    (cache.nextId,
      ⟨cache.entries ++ [(cacheKey, cache.nextId)], cache.nextId + 1⟩)

/-- `getServerInfo` (frontend.ts lines 370-386): looks the stable key of the
base URL list up in `cachedServerInfo`; on a miss the request promise is
created and cached under that key synchronously, before the promise settles,
so later callers receive the identical promise. -/
def getServerInfoCached (cache : ObjectCache) (baseUrls : List String) :
    Nat × ObjectCache :=
  cacheLookupOrInsert cache (stableStringifyList baseUrls)

/-- The resolution step of `getShardedVolume` (frontend.ts lines 412-436)
run against an already retrieved `ServerInfo`: resolve the node, require the
named data instance (a missing instance fails — the `instanceof` check in
the source can only fail for `undefined`, and an `undefined` repository
makes the property access throw), then look the stable volume key up in
`existingVolumes`, creating and caching a new `MultiscaleVolumeChunkSource`
on a miss. -/
def getShardedVolumeCached (serverRepositories : List (String × RepositoryInfo))
    (volumes : ObjectCache) (baseUrls : List String)
    (nodeKey dataInstanceKey level2 : String) : Except String (Nat × ObjectCache) :=
  match getNode serverRepositories nodeKey with
  | .error e => .error e
  | .ok none => .error "TypeError: cannot read properties of undefined"
  | .ok (some repositoryInfo) =>
    match List.lookup dataInstanceKey repositoryInfo.dataInstances with
    | none => .error ("Invalid data instance " ++ dataInstanceKey ++ ".")
    | some _ =>
      .ok (cacheLookupOrInsert volumes
        (stableStringifyVolumeKey baseUrls repositoryInfo.uuid dataInstanceKey level2))

/-! ### Per-level bound rescaling (`VolumeDataInstanceInfo.getSources`,
dvid/frontend.ts lines 107-139) -/

/-- The level-`n` voxel size computed by `getSources`:
`voxelSize[i] = voxelSize[i] * Math.pow(2, level)` (frontend.ts 113-115). -/
def dvidLevelVoxelSize (voxelSize0 : ℚ) (level : Nat) : ℚ :=
  voxelSize0 * 2 ^ level

/-- The level-`n` lower voxel bound computed by `getSources`
(frontend.ts line 120):
`Math.floor(lowerVoxelBound[i] * (voxelSize0[i] / voxelSize[i]))`. -/
def dvidLevelLowerVoxelBound (voxelSize0 : ℚ) (lowerVoxelBound0 : Int)
    (level : Nat) : Int :=
  ⌊(lowerVoxelBound0 : ℚ) * (voxelSize0 / dvidLevelVoxelSize voxelSize0 level)⌋

/-- The level-`n` upper voxel bound computed by `getSources`
(frontend.ts line 121):
`Math.ceil(upperVoxelBound[i] * (voxelSize0[i] / voxelSize[i]))`. -/
def dvidLevelUpperVoxelBound (voxelSize0 : ℚ) (upperVoxelBound0 : Int)
    (level : Nat) : Int :=
  ⌈(upperVoxelBound0 : ℚ) * (voxelSize0 / dvidLevelVoxelSize voxelSize0 level)⌉

/-! ### Clio annotation ids (clio/utils.ts) and coordinate rounding
(`ClioAnnotationSource.add`/`update`) -/

/-- The annotation type tags of `AnnotationType` in annotation/index. -/
inductive AnnotationType where
  | POINT
  | LINE
  | AXIS_ALIGNED_BOUNDING_BOX
  | ELLIPSOID
deriving DecidableEq

/-- A Clio point annotation: its type tag and its 3-d position.  JS number
coordinates are embedded as exact rationals. -/
structure ClioPointAnnot where
  type : AnnotationType
  point : ℚ × ℚ × ℚ
deriving DecidableEq

/-- Decimal digit test, `c ∈ '0'..'9'` (the regex class `\d`). -/
def isDigitChar (c : Char) : Bool :=
  '0' ≤ c && c ≤ '9'

/-- Decimal digits of a natural number, most significant first; fuel-bounded
structural recursion (`fuel ≥ n + 1` suffices). -/
def natDigitsAux : Nat → Nat → List Char
  | 0, _ => []
  | fuel + 1, n =>
    if n < 10 then [Nat.digitChar n]
    else natDigitsAux fuel (n / 10) ++ [Nat.digitChar (n % 10)]

/-- Decimal digits of a natural number, most significant first. -/
def natChars (n : Nat) : List Char :=
  natDigitsAux (n + 1) n

/-- The characters JavaScript prints for an integral number: an optional
minus sign followed by the decimal digits. -/
def intChars (i : Int) : List Char :=
  (if i < 0 then ['-'] else []) ++ natChars i.natAbs

/-- Fractional decimal digits of the fraction `num / den` with
`num < den`, fuel-bounded (JavaScript prints finitely many digits; every
value reached in this development terminates within the fuel). -/
def fracDigitChars : Nat → Nat → Nat → List Char
  | 0, _, _ => []
  | fuel + 1, num, den =>
    if num = 0 then []
    else Nat.digitChar (num * 10 / den) :: fracDigitChars fuel (num * 10 % den) den

/-- The string JavaScript template literals print for a number: integral
values print with no decimal point, other values print their sign, the
decimal digits of the integer part of their magnitude, a point, and the
fractional decimal digits. -/
def jsNumToString (q : ℚ) : String :=
  if q.den = 1 then ⟨intChars q.num⟩
  else
    ⟨(if q < 0 then ['-'] else []) ++ natChars (q.num.natAbs / q.den) ++
      '.' :: fracDigitChars 20 (q.num.natAbs % q.den) q.den⟩

/-- `Math.round`: round half towards positive infinity. -/
def jsMathRound (q : ℚ) : Int :=
  Rat.floor (q + mkRat 1 2)

/-- `getAnnotationId` (clio/utils.ts lines 47-52): a point annotation's id is
`x_y_z` over the printed coordinates; the switch returns `undefined` for any
other annotation type. -/
def getAnnotationId (a : ClioPointAnnot) : Option String :=
  match a.type with
  | .POINT =>
    some (jsNumToString a.point.1 ++ "_" ++ jsNumToString a.point.2.1 ++ "_" ++
      jsNumToString a.point.2.2)
  | _ => none

/-- Strip one optional leading minus sign (the regex fragment `-?`). -/
def stripDash (cs : List Char) : List Char :=
  if cs.head? = some '-' then cs.tail else cs

/-- Greedy parse of the regex fragment `-?\d+`: strip one optional minus
sign, then require at least one digit and consume all of them, returning the
remaining characters.  Deterministic because `\d+` is followed by `_` or end
of input in the pattern below. -/
def parseIntToken (cs : List Char) : Option (List Char) :=
  if ((stripDash cs).takeWhile isDigitChar).isEmpty then none
  else some ((stripDash cs).dropWhile isDigitChar)

/-- The anchored regex `^-?\d+_-?\d+_-?\d+$` of `typeOfAnnotationId`
(clio/utils.ts line 38). -/
def matchPointIdChars (cs : List Char) : Bool :=
  match parseIntToken cs with
  | some ('_' :: r1) =>
    (match parseIntToken r1 with
      | some ('_' :: r2) =>
        (match parseIntToken r2 with
          | some [] => true
          | _ => false)
      | _ => false)
  | _ => false

/-- `typeOfAnnotationId` (clio/utils.ts lines 37-45): an id matching the
point pattern is a point annotation id; any other id is invalid (`null`). -/
def typeOfAnnotationId (id : String) : Option AnnotationType :=
  if matchPointIdChars id.data then some .POINT else none

/-- `isAnnotationIdValid` (clio/utils.ts lines 54-56). -/
def isAnnotationIdValid (id : String) : Bool :=
  (typeOfAnnotationId id).isSome

/-- The coordinate rounding performed by `ClioAnnotationSource.add` and
`update` (precomputed backend.ts lines 326 and 347):
`annotation.point = annotation.point.map(x => Math.round(x))` for point
annotations. -/
def clioRoundPoint (p : ℚ × ℚ × ℚ) : ℚ × ℚ × ℚ :=
  ((jsMathRound p.1 : ℚ), (jsMathRound p.2.1 : ℚ), (jsMathRound p.2.2 : ℚ))

/-- `ClioAnnotationSource.add`/`update` restricted to its effect on the
annotation position: point annotations get their coordinates rounded to
integers; other annotation types are left untouched. -/
def clioNormalizePoint (a : ClioPointAnnot) : ClioPointAnnot :=
  if a.type = .POINT then { a with point := clioRoundPoint a.point } else a

/-! ## Helper lemmas -/

theorem lookup_append_of_none {α β : Type} [BEq α] (k : α)
    (l1 l2 : List (α × β)) (h : List.lookup k l1 = none) :
    List.lookup k (l1 ++ l2) = List.lookup k l2 := by
  induction l1 with
  | nil => rfl
  | cons a t ih =>
    obtain ⟨a1, a2⟩ := a
    rw [List.cons_append]
    simp only [List.lookup] at h ⊢
    cases hk : (k == a1) with
    | true => rw [hk] at h; exact Option.noConfusion h
    | false => rw [hk] at h; exact ih h

theorem find?_filter_of_imp {α : Type} (p q : α → Bool) (l : List α)
    (h : ∀ x, p x = true → q x = true) :
    List.find? p (l.filter q) = List.find? p l := by
  induction l with
  | nil => rfl
  | cons a t ih =>
    by_cases hq : q a = true
    · rw [List.filter_cons_of_pos hq, List.find?_cons, List.find?_cons]
      split <;> [rfl; exact ih]
    · rw [List.filter_cons_of_neg (by simpa using hq), List.find?_cons]
      have hp : p a = false := by
        cases hpa : p a
        · rfl
        · exact absurd (h a hpa) hq
      rw [hp, ih]

theorem headerGet_headersSet_self (hs : List (String × String)) (name value : String) :
    headerGet (headersSet hs name value) name = some value := by
  unfold headerGet headersSet
  rw [List.find?_append]
  have hnone : List.find? (fun p => p.1 == strToLower name)
      (hs.filter (fun p => !(p.1 == strToLower name))) = none := by
    apply List.find?_eq_none.mpr
    intro x hx
    have := (List.mem_filter.mp hx).2
    simpa using this
  rw [hnone]
  simp [List.find?]

theorem headerGet_headersSet_other (hs : List (String × String))
    (n1 n2 value : String) (h : strToLower n1 ≠ strToLower n2) :
    headerGet (headersSet hs n1 value) n2 = headerGet hs n2 := by
  unfold headerGet headersSet
  rw [List.find?_append]
  rw [find?_filter_of_imp _ _ hs (by
    intro x hx
    simp only [beq_iff_eq] at hx
    rw [hx]
    simp only [Bool.not_eq_true', beq_eq_false_iff_ne, ne_eq]
    exact fun hh => h hh.symm)]
  have hne : (strToLower n1 == strToLower n2) = false := beq_eq_false_iff_ne.mpr h
  have hsingle : List.find? (fun p => p.1 == strToLower n2)
      [(strToLower n1, value)] = none := by
    simp [List.find?, hne]
  rw [hsingle]
  cases List.find? (fun p => p.1 == strToLower n2) hs <;> simp

/-! ## Claim theorems -/

/-- C1: for every credentialed request, the error classifier of
`fetchWithDVIDCredentials` maps an HTTP failure with status 401 or 403 to a
credential refresh-and-retry (the second attempt runs with refreshed
credentials), maps status 504 to a retry with the same credentials, and
re-throws every other error unchanged with no retry. -/
theorem dvid_credential_retry_classification {T : Type}
    (server : Nat → Nat → Except HttpError T) (e : HttpError)
    (hfail : server 0 0 = .error e) :
    ((e.status = 401 ∨ e.status = 403) →
      dvidErrorHandler e = .ok .refresh ∧
      fetchWithDVIDCredentials server = server 1 1) ∧
    (e.status = 504 →
      dvidErrorHandler e = .ok .retry ∧
      fetchWithDVIDCredentials server = server 1 0) ∧
    (e.status ≠ 401 → e.status ≠ 403 → e.status ≠ 504 →
      dvidErrorHandler e = .error e ∧
      fetchWithDVIDCredentials server = .error e) := by
  refine ⟨?_, ?_, ?_⟩
  · intro h
    have hc : dvidErrorHandler e = .ok .refresh := by
      unfold dvidErrorHandler
      rcases h with h | h <;> simp [h]
    exact ⟨hc, by simp [fetchWithDVIDCredentials, fetchWithCredentialsModel, hfail, hc]⟩
  · intro h
    have hc : dvidErrorHandler e = .ok .retry := by
      unfold dvidErrorHandler
      simp [h]
    exact ⟨hc, by simp [fetchWithDVIDCredentials, fetchWithCredentialsModel, hfail, hc]⟩
  · intro h1 h3 h4
    have hc : dvidErrorHandler e = .error e := by
      unfold dvidErrorHandler
      simp [h1, h3, h4]
    exact ⟨hc, by simp [fetchWithDVIDCredentials, fetchWithCredentialsModel, hfail, hc]⟩

theorem dvid_credential_retry_classification_witness :
    (fun _ _ => (Except.error ⟨401⟩ : Except HttpError Nat)) 0 0 =
      Except.error (⟨401⟩ : HttpError) ∧
    ((⟨401⟩ : HttpError).status = 401 ∨ (⟨401⟩ : HttpError).status = 403) ∧
    fetchWithDVIDCredentials (fun _ _ => (Except.error ⟨401⟩ : Except HttpError Nat)) =
      (fun _ _ => (Except.error ⟨401⟩ : Except HttpError Nat)) 1 1 :=
  ⟨rfl, Or.inl rfl,
    ((dvid_credential_retry_classification
      (fun _ _ => (Except.error ⟨401⟩ : Except HttpError Nat)) ⟨401⟩ rfl).1
      (Or.inl rfl)).2⟩

/-- C6: for every credentialed request, the `Authorization: Bearer <token>`
header and the `Access-Control-Allow-Origin: *` header are both attached
when the target URL starts with `https`, neither is attached otherwise, and
the remaining fields of the request init pass through unchanged. -/
theorem dvid_credential_headers (credentials input : String) (reqInit : RequestInit) :
    (applyDVIDCredentialHeaders credentials input reqInit).method = reqInit.method ∧
    (applyDVIDCredentialHeaders credentials input reqInit).body = reqInit.body ∧
    (strStartsWith input "https" = true →
      headerGet (applyDVIDCredentialHeaders credentials input reqInit).headers
        "Authorization" = some ("Bearer " ++ credentials) ∧
      headerGet (applyDVIDCredentialHeaders credentials input reqInit).headers
        "Access-Control-Allow-Origin" = some "*") ∧
    (strStartsWith input "https" = false →
      (applyDVIDCredentialHeaders credentials input reqInit).headers = reqInit.headers) := by
  by_cases h : strStartsWith input "https" = true
  · refine ⟨by simp [applyDVIDCredentialHeaders, h], by simp [applyDVIDCredentialHeaders, h],
      ?_, ?_⟩
    · intro _
      constructor
      · rw [show (applyDVIDCredentialHeaders credentials input reqInit).headers =
            headersSet (headersSet reqInit.headers "Authorization"
              ("Bearer " ++ credentials)) "Access-Control-Allow-Origin" "*" by
            simp [applyDVIDCredentialHeaders, h]]
        rw [headerGet_headersSet_other _ _ _ _ (by decide)]
        exact headerGet_headersSet_self _ _ _
      · rw [show (applyDVIDCredentialHeaders credentials input reqInit).headers =
            headersSet (headersSet reqInit.headers "Authorization"
              ("Bearer " ++ credentials)) "Access-Control-Allow-Origin" "*" by
            simp [applyDVIDCredentialHeaders, h]]
        exact headerGet_headersSet_self _ _ _
    · intro hfalse
      rw [h] at hfalse
      exact absurd hfalse (by simp)
  · have hf : strStartsWith input "https" = false := by
      cases hv : strStartsWith input "https"
      · rfl
      · exact absurd hv h
    refine ⟨by simp [applyDVIDCredentialHeaders, hf], by simp [applyDVIDCredentialHeaders, hf],
      ?_, by intro _; simp [applyDVIDCredentialHeaders, hf]⟩
    intro htrue
    rw [hf] at htrue
    exact absurd htrue (by simp)

theorem dvid_credential_headers_witness :
    strStartsWith "https://example.org" "https" = true ∧
    headerGet (applyDVIDCredentialHeaders "tok" "https://example.org"
      ⟨"GET", none, []⟩).headers "Authorization" = some ("Bearer " ++ "tok") :=
  ⟨by decide,
    ((dvid_credential_headers "tok" "https://example.org" ⟨"GET", none, []⟩).2.2.1
      (by decide)).1⟩

/-- C8: decoding is deterministic — the results of `decodeFragmentChunk` and
`decodeManifestChunk` depend only on the payload (and chunk metadata), so
running either twice on equal inputs yields bit-identical outputs.  Both
embeddings are pure functions of their input, mirroring the absence of any
mutable external state in the decode path of the source. -/
theorem decode_determinism :
    (∀ bytes1 bytes2 : List Nat, bytes1 = bytes2 →
      decodeFragmentChunk bytes1 = decodeFragmentChunk bytes2) ∧
    (∀ m1 m2 : JsonValue, m1 = m2 →
      decodeManifestChunk m1 = decodeManifestChunk m2) :=
  ⟨fun _ _ h => h ▸ rfl, fun _ _ h => h ▸ rfl⟩

theorem decode_determinism_witness :
    ([3, 0, 0, 0] : List Nat) = [3, 0, 0, 0] ∧
    decodeFragmentChunk [3, 0, 0, 0] = decodeFragmentChunk [3, 0, 0, 0] :=
  ⟨rfl, decode_determinism.1 [3, 0, 0, 0] [3, 0, 0, 0] rfl⟩

/-- C4: the chunk request paths are pure, deterministic functions of the
chunk coordinate and source parameters reproducing the documented formats
exactly — the precomputed raster path is `path/x0-x1_y0-y1_z0-z1` with
`x1 = x0 + chunkDataSize[0]` (likewise y, z), the mesh manifest path is
`path/objectId:lod`, and the skeleton path ends in `/objectId_swc`. -/
theorem chunk_request_path_formats (path nodeKey dataInstanceKey : String)
    (x0 y0 z0 sx sy sz objectId lod : Nat) (fragmentId : String) :
    precomputedVolumeChunkPath path (x0, y0, z0) (sx, sy, sz) =
      specRasterRangePath path x0 (x0 + sx) y0 (y0 + sy) z0 (z0 + sz) ∧
    precomputedMeshManifestPath path objectId lod =
      specManifestPath path objectId lod ∧
    precomputedMeshFragmentPath path fragmentId = path ++ "/" ++ fragmentId ∧
    dvidSkeletonPath nodeKey dataInstanceKey objectId =
      ("/api/node/" ++ nodeKey ++ "/" ++ dataInstanceKey ++ "/key") ++ "/" ++
        toString objectId ++ "_swc" := by
  refine ⟨rfl, rfl, rfl, ?_⟩
  apply String.ext
  simp only [dvidSkeletonPath, String.data_append]
  simp [List.append_assoc]

/-- C7: `decodeFragmentChunk` reads the first 4 bytes as a little-endian
unsigned 32-bit vertex count, takes the vertex position data starting at
byte offset 4 followed by the triangle index data, and fails with a decode
error (rather than producing a payload) when the buffer is too short for the
declared vertex count, or too short for the 4-byte header itself. -/
theorem decodeFragmentChunk_layout (b0 b1 b2 b3 : Nat) (rest : List Nat) :
    (12 * (b0 + 256 * b1 + 65536 * b2 + 16777216 * b3) ≤ rest.length →
      decodeFragmentChunk (b0 :: b1 :: b2 :: b3 :: rest) =
        .ok ⟨b0 + 256 * b1 + 65536 * b2 + 16777216 * b3,
          rest.take (12 * (b0 + 256 * b1 + 65536 * b2 + 16777216 * b3)),
          rest.drop (12 * (b0 + 256 * b1 + 65536 * b2 + 16777216 * b3))⟩) ∧
    (rest.length < 12 * (b0 + 256 * b1 + 65536 * b2 + 16777216 * b3) →
      decodeFragmentChunk (b0 :: b1 :: b2 :: b3 :: rest) =
        .error "truncated mesh vertex buffer") ∧
    (∀ tooShort : List Nat, tooShort.length < 4 →
      decodeFragmentChunk tooShort =
        .error "RangeError: offset is outside the bounds of the DataView") := by
  refine ⟨?_, ?_, ?_⟩
  · intro h
    have hlen : ¬ ((b0 :: b1 :: b2 :: b3 :: rest).length <
        4 + 12 * (b0 + 256 * b1 + 65536 * b2 + 16777216 * b3)) := by
      simp only [List.length_cons]
      omega
    show decodeTriangleVertexPositionsAndIndices (b0 :: b1 :: b2 :: b3 :: rest) 4
      (b0 + 256 * b1 + 65536 * b2 + 16777216 * b3) = _
    unfold decodeTriangleVertexPositionsAndIndices
    rw [if_neg hlen, Nat.add_comm 4 (12 * (b0 + 256 * b1 + 65536 * b2 + 16777216 * b3))]
    rfl
  · intro h
    have hlen : (b0 :: b1 :: b2 :: b3 :: rest).length <
        4 + 12 * (b0 + 256 * b1 + 65536 * b2 + 16777216 * b3) := by
      simp only [List.length_cons]
      omega
    show decodeTriangleVertexPositionsAndIndices (b0 :: b1 :: b2 :: b3 :: rest) 4
      (b0 + 256 * b1 + 65536 * b2 + 16777216 * b3) = _
    unfold decodeTriangleVertexPositionsAndIndices
    rw [if_pos hlen]
  · intro tooShort hlen
    match tooShort, hlen with
    | [], _ => rfl
    | [a], _ => rfl
    | [a, b], _ => rfl
    | [a, b, c], _ => rfl
    | a :: b :: c :: d :: t, hlen => simp at hlen; omega

theorem decodeFragmentChunk_layout_witness :
    12 * (1 + 256 * 0 + 65536 * 0 + 16777216 * 0) ≤
      ([9, 9, 9, 9, 9, 9, 9, 9, 9, 9, 9, 9] : List Nat).length ∧
    decodeFragmentChunk (1 :: 0 :: 0 :: 0 :: [9, 9, 9, 9, 9, 9, 9, 9, 9, 9, 9, 9]) =
      .ok ⟨1 + 256 * 0 + 65536 * 0 + 16777216 * 0,
        ([9, 9, 9, 9, 9, 9, 9, 9, 9, 9, 9, 9] : List Nat).take
          (12 * (1 + 256 * 0 + 65536 * 0 + 16777216 * 0)),
        ([9, 9, 9, 9, 9, 9, 9, 9, 9, 9, 9, 9] : List Nat).drop
          (12 * (1 + 256 * 0 + 65536 * 0 + 16777216 * 0))⟩ :=
  ⟨by decide,
    (decodeFragmentChunk_layout 1 0 0 0 [9, 9, 9, 9, 9, 9, 9, 9, 9, 9, 9, 9]).1
      (by decide)⟩

/-- C2: for every base level with integer bounds `L ≤ U` componentwise and
positive base resolution `R0`, the per-level bounds computed by `getSources`
at level `n` (resolution `Rn = R0 * 2^n`) are exactly
`floor(L * R0 / Rn)` and `ceil(U * R0 / Rn)` — equivalently `floor(L / 2^n)`
and `ceil(U / 2^n)` — and in particular a base volume with lower bound 0 and
upper bound 100 rescaled to level 1 yields lower bound 0 and upper bound 50
(the spec scenario `voxel_offset [0,0,0]`, `size [100,100,100]`,
componentwise). -/
theorem dvid_getSources_bounds (R0 : ℚ) (hR : 0 < R0) (L U : Int) (n : Nat) :
    dvidLevelLowerVoxelBound R0 L n = ⌊(L : ℚ) * R0 / (R0 * 2 ^ n)⌋ ∧
    dvidLevelLowerVoxelBound R0 L n = ⌊(L : ℚ) / 2 ^ n⌋ ∧
    dvidLevelUpperVoxelBound R0 U n = ⌈(U : ℚ) * R0 / (R0 * 2 ^ n)⌉ ∧
    dvidLevelUpperVoxelBound R0 U n = ⌈(U : ℚ) / 2 ^ n⌉ ∧
    dvidLevelLowerVoxelBound R0 0 1 = 0 ∧
    dvidLevelUpperVoxelBound R0 100 1 = 50 := by
  have hkey : R0 / (R0 * 2 ^ n) = 1 / 2 ^ n := by
    rw [div_mul_eq_div_div, div_self (ne_of_gt hR)]
  have hkey1 : R0 / (R0 * 2 ^ 1) = 1 / 2 ^ 1 := by
    rw [div_mul_eq_div_div, div_self (ne_of_gt hR)]
  refine ⟨?_, ?_, ?_, ?_, ?_, ?_⟩
  · rw [dvidLevelLowerVoxelBound, dvidLevelVoxelSize, mul_div_assoc]
  · rw [dvidLevelLowerVoxelBound, dvidLevelVoxelSize, hkey, mul_one_div]
  · rw [dvidLevelUpperVoxelBound, dvidLevelVoxelSize, mul_div_assoc]
  · rw [dvidLevelUpperVoxelBound, dvidLevelVoxelSize, hkey, mul_one_div]
  · rw [dvidLevelLowerVoxelBound, dvidLevelVoxelSize, hkey1]
    norm_num
  · rw [dvidLevelUpperVoxelBound, dvidLevelVoxelSize, hkey1]
    norm_num

theorem dvid_getSources_bounds_witness :
    (0 : ℚ) < 10 ∧
    dvidLevelLowerVoxelBound 10 0 1 = 0 ∧
    dvidLevelUpperVoxelBound 10 100 1 = 50 :=
  ⟨by norm_num,
    (dvid_getSources_bounds 10 (by norm_num) 0 100 1).2.2.2.2.1,
    (dvid_getSources_bounds 10 (by norm_num) 0 100 1).2.2.2.2.2⟩

/-- C9: `ServerInfo.getNode(nodeKey)` throws unless exactly one repository
key has `nodeKey` as a prefix; when it does not throw, it returns the map
entry stored under `nodeKey` itself — so for a `nodeKey` that is a strict
prefix of exactly one repository key but is not itself a key, the uniqueness
check passes yet `getNode` returns `undefined` (embedded as `none`) instead
of the uniquely matching repository. -/
theorem getNode_prefix_match (repositories : List (String × RepositoryInfo))
    (nodeKey : String) :
    (((repositories.map Prod.fst).filter (fun k => strStartsWith k nodeKey)).length = 1 →
      getNode repositories nodeKey = .ok (List.lookup nodeKey repositories)) ∧
    (((repositories.map Prod.fst).filter (fun k => strStartsWith k nodeKey)).length ≠ 1 →
      getNode repositories nodeKey =
        .error ("Node key \"" ++ nodeKey ++ "\" matches " ++
          toString ((repositories.map Prod.fst).filter
            (fun k => strStartsWith k nodeKey)).length ++ " nodes.")) ∧
    getNode [("abc", (⟨"", "", [], [], [], ""⟩ : RepositoryInfo))] "ab" = .ok none := by
  refine ⟨?_, ?_, by rfl⟩
  · intro h
    simp [getNode, h]
  · intro h
    simp [getNode, h]

theorem getNode_prefix_match_witness :
    (([("abc", (⟨"", "", [], [], [], ""⟩ : RepositoryInfo))].map Prod.fst).filter
      (fun k => strStartsWith k "ab")).length = 1 ∧
    getNode [("abc", (⟨"", "", [], [], [], ""⟩ : RepositoryInfo))] "ab" =
      .ok (List.lookup "ab" [("abc", (⟨"", "", [], [], [], ""⟩ : RepositoryInfo))]) :=
  ⟨by decide,
    (getNode_prefix_match [("abc", (⟨"", "", [], [], [], ""⟩ : RepositoryInfo))] "ab").1
      (by decide)⟩

/-- C5: `getServerInfo` caches the promise under the stable string key of
the base-URL list at call time (before it settles), so every later call with
the same base URLs returns the identical promise and leaves the cache
unchanged; likewise `getShardedVolume` returns the identical
`MultiscaleVolumeChunkSource` object for repeated calls with the same
(baseUrls, resolved node uuid, dataInstanceKey, level2). -/
theorem caches_memoize :
    (∀ (cache : ObjectCache) (baseUrls : List String) (promise : Nat)
      (cache2 : ObjectCache),
      getServerInfoCached cache baseUrls = (promise, cache2) →
      getServerInfoCached cache2 baseUrls = (promise, cache2)) ∧
    (∀ (serverRepositories : List (String × RepositoryInfo)) (volumes : ObjectCache)
      (baseUrls : List String) (nodeKey dataInstanceKey level2 : String)
      (volume : Nat) (volumes2 : ObjectCache),
      getShardedVolumeCached serverRepositories volumes baseUrls nodeKey
        dataInstanceKey level2 = .ok (volume, volumes2) →
      getShardedVolumeCached serverRepositories volumes2 baseUrls nodeKey
        dataInstanceKey level2 = .ok (volume, volumes2)) := by
  have idem : ∀ (cache : ObjectCache) (cacheKey : String) (cached : Nat)
      (cache2 : ObjectCache), cacheLookupOrInsert cache cacheKey = (cached, cache2) →
      cacheLookupOrInsert cache2 cacheKey = (cached, cache2) := by
    intro cache cacheKey cached cache2 h
    unfold cacheLookupOrInsert at h ⊢
    cases hl : List.lookup cacheKey cache.entries with
    | some p =>
      rw [hl] at h
      cases h
      rw [hl]
    | none =>
      rw [hl] at h
      cases h
      dsimp only
      rw [lookup_append_of_none _ _ _ hl]
      simp [List.lookup]
  constructor
  · intro cache baseUrls promise cache2 h
    exact idem cache (stableStringifyList baseUrls) promise cache2 h
  · intro sr volumes baseUrls nodeKey dataInstanceKey level2 volume volumes2 h
    unfold getShardedVolumeCached at h ⊢
    split at h
    · exact Except.noConfusion h
    · exact Except.noConfusion h
    · next repositoryInfo heq =>
      split at h
      · exact Except.noConfusion h
      · next inst heq2 =>
        injection h with h2
        rw [idem volumes _ volume volumes2 h2]

theorem caches_memoize_witness :
    getServerInfoCached ⟨[], 0⟩ ["http://e1.org"] =
      (0, ⟨[(stableStringifyList ["http://e1.org"], 0)], 1⟩) ∧
    getServerInfoCached ⟨[(stableStringifyList ["http://e1.org"], 0)], 1⟩
      ["http://e1.org"] =
      (0, ⟨[(stableStringifyList ["http://e1.org"], 0)], 1⟩) :=
  ⟨rfl, caches_memoize.1 ⟨[], 0⟩ ["http://e1.org"] 0
    ⟨[(stableStringifyList ["http://e1.org"], 0)], 1⟩ rfl⟩

theorem parseDataInstances_eq (entries : List (String × JsonValue))
    (keys : List String) :
    parseDataInstances entries keys =
      (entries.filterMap (fun p =>
        match parseDataInstance p.2 p.1 keys with
        | .ok info => some (p.1, info)
        | .error _ => none),
       entries.filterMap (fun p =>
        match parseDataInstance p.2 p.1 keys with
        | .ok _ => none
        | .error msg =>
          some ("Failed to parse data instance \"" ++ p.1 ++ "\": " ++ msg))) := by
  induction entries with
  | nil => rfl
  | cons a t ih =>
    obtain ⟨key, v⟩ := a
    unfold parseDataInstances
    rw [ih]
    cases hp : parseDataInstance v key keys with
    | ok info => simp [List.filterMap_cons, hp]
    | error msg => simp [List.filterMap_cons, hp]

/-- C3: for every repository-info object whose `DataInstances` map contains
entries that fail to parse, the `RepositoryInfo` constructor still returns:
each failing instance is omitted from `dataInstances`, one descriptive
message per failure is appended to `errors`, and every well-formed instance
is still parsed and retained — a bad data instance is never fatal to the
repository. -/
theorem repositoryInfo_skips_bad_instances (aliasS descS : String)
    (diEntries : List (String × JsonValue)) (dagNodes : List (String × JsonValue)) :
    makeRepositoryInfo (JsonValue.obj
      [("Alias", .str aliasS), ("Description", .str descS),
       ("DataInstances", .obj diEntries), ("DAG", .obj [("Nodes", .obj dagNodes)])]) =
    .ok { aliasName := aliasS, description := descS,
          errors := diEntries.filterMap (fun p =>
            match parseDataInstance p.2 p.1 (diEntries.map Prod.fst) with
            | .ok _ => none
            | .error msg =>
              some ("Failed to parse data instance \"" ++ p.1 ++ "\": " ++ msg)),
          dataInstances := diEntries.filterMap (fun p =>
            match parseDataInstance p.2 p.1 (diEntries.map Prod.fst) with
            | .ok info => some (p.1, info)
            | .error _ => none),
          nodes := dagNodes.map Prod.fst, uuid := "" } := by
  have h := parseDataInstances_eq diEntries (diEntries.map Prod.fst)
  calc makeRepositoryInfo (JsonValue.obj
        [("Alias", .str aliasS), ("Description", .str descS),
         ("DataInstances", .obj diEntries), ("DAG", .obj [("Nodes", .obj dagNodes)])])
      = .ok { aliasName := aliasS, description := descS,
              errors := (parseDataInstances diEntries (diEntries.map Prod.fst)).2,
              dataInstances := (parseDataInstances diEntries (diEntries.map Prod.fst)).1,
              nodes := dagNodes.map Prod.fst, uuid := "" } := rfl
    _ = _ := by rw [h]

theorem digitChar_isDigit (d : Nat) (hd : d < 10) :
    isDigitChar (Nat.digitChar d) = true := by
  interval_cases d <;> decide

theorem natDigitsAux_digits (fuel : Nat) :
    ∀ (n : Nat), ∀ c ∈ natDigitsAux fuel n, isDigitChar c = true := by
  induction fuel with
  | zero => intro n c hc; simp [natDigitsAux] at hc
  | succ fuel ih =>
    intro n c hc
    unfold natDigitsAux at hc
    by_cases h : n < 10
    · rw [if_pos h] at hc
      simp only [List.mem_singleton] at hc
      subst hc
      exact digitChar_isDigit n h
    · rw [if_neg h] at hc
      rw [List.mem_append] at hc
      cases hc with
      | inl h1 => exact ih _ c h1
      | inr h2 =>
        simp only [List.mem_singleton] at h2
        subst h2
        exact digitChar_isDigit _ (Nat.mod_lt _ (by norm_num))

theorem natChars_digits (n : Nat) : ∀ c ∈ natChars n, isDigitChar c = true :=
  natDigitsAux_digits (n + 1) n

theorem natChars_ne_nil (n : Nat) : natChars n ≠ [] := by
  unfold natChars natDigitsAux
  by_cases h : n < 10
  · simp [h]
  · simp [h]

theorem takeWhile_append_digits (p : Char → Bool) (ds rest : List Char)
    (hd : ∀ c ∈ ds, p c = true)
    (hr : ∀ r t, rest = r :: t → p r = false) :
    (ds ++ rest).takeWhile p = ds ∧ (ds ++ rest).dropWhile p = rest := by
  induction ds with
  | nil =>
    constructor
    · cases rest with
      | nil => rfl
      | cons r t => simp [List.takeWhile_cons, hr r t rfl]
    · cases rest with
      | nil => rfl
      | cons r t => simp [List.dropWhile_cons, hr r t rfl]
  | cons d ds ih =>
    have hpd : p d = true := hd d (by simp)
    have ih2 := ih (fun c hc => hd c (by simp [hc]))
    constructor
    · simp [List.takeWhile_cons, hpd, ih2.1]
    · simp [List.dropWhile_cons, hpd, ih2.2]

theorem parseIntToken_digit_block (ds rest : List Char)
    (hds : ∀ c ∈ ds, isDigitChar c = true) (hne : ds ≠ [])
    (hr : ∀ r t, rest = r :: t → isDigitChar r = false) :
    parseIntToken (ds ++ rest) = some rest := by
  obtain ⟨d, ds2, rfl⟩ : ∃ d ds2, ds = d :: ds2 := by
    cases ds with
    | nil => exact absurd rfl hne
    | cons d ds2 => exact ⟨d, ds2, rfl⟩
  have hd : isDigitChar d = true := hds d (by simp)
  have hdash : d ≠ '-' := by
    intro hEq
    rw [hEq] at hd
    exact absurd hd (by decide)
  have hsplit := takeWhile_append_digits isDigitChar (d :: ds2) rest hds hr
  have hstrip : stripDash ((d :: ds2) ++ rest) = (d :: ds2) ++ rest := by
    unfold stripDash
    rw [if_neg (by
      rw [List.cons_append, List.head?_cons]
      simp only [Option.some.injEq]
      exact hdash)]
  unfold parseIntToken
  rw [hstrip, hsplit.1, hsplit.2]
  rw [if_neg (by
    simp only [List.isEmpty_iff]
    exact List.cons_ne_nil d ds2)]

theorem parseIntToken_intChars (i : Int) (rest : List Char)
    (hr : ∀ r t, rest = r :: t → isDigitChar r = false) :
    parseIntToken (intChars i ++ rest) = some rest := by
  by_cases hneg : i < 0
  · have hlist : intChars i ++ rest = '-' :: (natChars i.natAbs ++ rest) := by
      simp [intChars, hneg]
    rw [hlist]
    have hstrip : stripDash ('-' :: (natChars i.natAbs ++ rest)) =
        natChars i.natAbs ++ rest := by
      simp [stripDash]
    unfold parseIntToken
    rw [hstrip]
    have hsplit := takeWhile_append_digits isDigitChar (natChars i.natAbs) rest
      (natChars_digits _) hr
    rw [hsplit.1, hsplit.2]
    rw [if_neg (by
      simp only [List.isEmpty_iff]
      exact natChars_ne_nil _)]
  · have hlist : intChars i ++ rest = natChars i.natAbs ++ rest := by
      simp [intChars, hneg]
    rw [hlist]
    exact parseIntToken_digit_block _ _ (natChars_digits _) (natChars_ne_nil _) hr

theorem matchPointId_int_triple (x y z : Int) :
    matchPointIdChars (intChars x ++ '_' :: (intChars y ++ '_' :: intChars z)) =
      true := by
  have h1 := parseIntToken_intChars x ('_' :: (intChars y ++ '_' :: intChars z))
    (fun r t hEq => by cases hEq; decide)
  have h2 := parseIntToken_intChars y ('_' :: intChars z)
    (fun r t hEq => by cases hEq; decide)
  have h3 := parseIntToken_intChars z []
    (fun r t hEq => by cases hEq)
  rw [List.append_nil] at h3
  unfold matchPointIdChars
  rw [h1]
  simp only [h2, h3]

theorem jsNumToString_intCast (x : Int) :
    jsNumToString (x : ℚ) = String.mk (intChars x) := by
  unfold jsNumToString
  rw [if_pos (Rat.den_intCast x), Rat.num_intCast]

/-- C10: annotation-id round trip — for every point annotation whose three
coordinates are integers (`ClioAnnotationSource.add`/`update` enforce this by
rounding each coordinate), `getAnnotationId` produces the id `x_y_z`,
`typeOfAnnotationId` classifies that id as a point annotation id, and
`isAnnotationIdValid` holds; for a point annotation with the non-integer
coordinate 3/2 the produced id `1.5_2_3` fails this classification. -/
theorem clio_point_annotation_id_round_trip :
    (∀ x y z : Int,
      getAnnotationId ⟨.POINT, ((x : ℚ), (y : ℚ), (z : ℚ))⟩ =
        some (String.mk (intChars x) ++ "_" ++ String.mk (intChars y) ++ "_" ++
          String.mk (intChars z)) ∧
      typeOfAnnotationId (String.mk (intChars x) ++ "_" ++ String.mk (intChars y) ++
        "_" ++ String.mk (intChars z)) = some .POINT ∧
      isAnnotationIdValid (String.mk (intChars x) ++ "_" ++ String.mk (intChars y) ++
        "_" ++ String.mk (intChars z)) = true) ∧
    (∀ a : ClioPointAnnot, a.type = .POINT →
      (clioNormalizePoint a).point.1.den = 1 ∧
      (clioNormalizePoint a).point.2.1.den = 1 ∧
      (clioNormalizePoint a).point.2.2.den = 1) ∧
    (getAnnotationId ⟨.POINT, (mkRat 3 2, 2, 3)⟩ = some "1.5_2_3" ∧
      typeOfAnnotationId "1.5_2_3" = none ∧
      isAnnotationIdValid "1.5_2_3" = false) := by
  refine ⟨?_, ?_, ?_⟩
  · intro x y z
    have htype : typeOfAnnotationId (String.mk (intChars x) ++ "_" ++
        String.mk (intChars y) ++ "_" ++ String.mk (intChars z)) = some .POINT := by
      have hdata : (String.mk (intChars x) ++ "_" ++ String.mk (intChars y) ++ "_" ++
          String.mk (intChars z)).data =
          intChars x ++ '_' :: (intChars y ++ '_' :: intChars z) := by
        simp [String.data_append]
      unfold typeOfAnnotationId
      rw [hdata, matchPointId_int_triple]
      rfl
    refine ⟨?_, htype, ?_⟩
    · show some (jsNumToString (x : ℚ) ++ "_" ++ jsNumToString (y : ℚ) ++ "_" ++
        jsNumToString (z : ℚ)) = _
      rw [jsNumToString_intCast, jsNumToString_intCast, jsNumToString_intCast]
    · unfold isAnnotationIdValid
      rw [htype]
      rfl
  · intro a ha
    unfold clioNormalizePoint
    rw [if_pos ha]
    exact ⟨Rat.den_intCast _, Rat.den_intCast _, Rat.den_intCast _⟩
  · refine ⟨by decide, by decide, by decide⟩

theorem clio_point_annotation_id_round_trip_witness :
    (⟨AnnotationType.POINT, (mkRat 1 2, 0, 0)⟩ : ClioPointAnnot).type =
      AnnotationType.POINT ∧
    ((clioNormalizePoint ⟨AnnotationType.POINT, (mkRat 1 2, 0, 0)⟩).point.1.den = 1 ∧
     (clioNormalizePoint ⟨AnnotationType.POINT, (mkRat 1 2, 0, 0)⟩).point.2.1.den = 1 ∧
     (clioNormalizePoint ⟨AnnotationType.POINT, (mkRat 1 2, 0, 0)⟩).point.2.2.den = 1) :=
  ⟨rfl, clio_point_annotation_id_round_trip.2.1
    ⟨AnnotationType.POINT, (mkRat 1 2, 0, 0)⟩ rfl⟩
